import Mathlib

/-!
Verification of the canvas reconciliation and orchestration engine
(CanvasManager.ts from the controlLayers konva feature).

The embedding is shallow: the manager state is a Lean structure, the
external immutable snapshot is a structure whose object identities are
modelled by Nat reference tokens (JavaScript reference equality on a
sub-tree is equality of its token), adapters are records carrying a
creation tag so that adapter identity across reconciliation cycles is
observable, and side effects (adapter creation, destruction, update,
publishing on a value channel, transform operations) are returned as an
explicit effect list.  Entity ids, which are strings in the source, are
modelled by Nat.
-/

namespace InvokeCanvas

/-- The four entity type tags of the canvas state model
(layer, control_adapter, regional_guidance, inpaint_mask). -/
inductive EntityType
  | layer
  | control_adapter
  | regional_guidance
  | inpaint_mask
deriving DecidableEq, Repr

/-- RGBA color with Nat channels, mirroring RgbaColor. -/
structure RgbaColor where
  r : Nat
  g : Nat
  b : Nat
  a : Nat
deriving DecidableEq, Repr

/-- RGBA_WHITE from the store types: opaque white. -/
def RGBA_WHITE : RgbaColor := { r := 255, g := 255, b := 255, a := 255 }

/-- CanvasEntityIdentifier: an id plus a type tag. -/
structure CanvasEntityIdentifier where
  id : Nat
  type : EntityType
deriving DecidableEq, Repr

/-- The per-entity snapshot state the engine reads: its id, its declared
type tag and its fill color (the only state field the verified
operations inspect). -/
structure Entity where
  id : Nat
  type : EntityType
  fill : RgbaColor
deriving DecidableEq, Repr

/-- An entity adapter (CanvasLayer / CanvasControlAdapter / CanvasRegion /
CanvasInpaintMask).  The tag is the creation stamp: two adapters are the
same instance exactly when they are equal as records, since every
construction uses a fresh tag. -/
structure Adapter where
  id : Nat
  type : EntityType
  tag : Nat
deriving DecidableEq, Repr

/-- The value channels published at the end of a render pass. -/
inductive Chan
  | toolState
  | selectedEntityIdentifier
  | selectedEntity
  | currentFill
deriving DecidableEq, Repr

/-- Observable side effects of the engine, recorded in order. -/
inductive Effect
  | createAdapter (a : Adapter)
  | destroyAdapter (a : Adapter)
  | updateAdapter (a : Adapter)
  | renderInitialImage
  | publish (c : Chan)
  | renderBboxPreview
  | renderStagingArea
  | arrange
  | startTransformOp (a : Adapter)
  | applyTransformOp (a : Adapter)
  | stopTransformOp (a : Adapter)
deriving DecidableEq, Repr

/-- The immutable application snapshot (CanvasV2State) as the engine
reads it.  Fields named with the Ref suffix are Nat reference tokens
standing for the object identity of a sub-tree: the source compares
those sub-trees with JavaScript reference equality only.  Scalar fields
(tool selection token, fill, mask opacity, selected identifier, session
active flag) are compared by value in the source and are modelled by
value. -/
structure CanvasV2State where
  ref : Nat
  layersEntitiesRef : Nat
  layersEntities : List Entity
  controlAdaptersEntitiesRef : Nat
  controlAdaptersEntities : List Entity
  regionsEntitiesRef : Nat
  regionsEntities : List Entity
  inpaintMaskRef : Nat
  inpaintMask : Entity
  initialImageRef : Nat
  bboxRef : Nat
  bboxRectRef : Nat
  toolSelected : Nat
  toolFill : RgbaColor
  settingsMaskOpacity : Nat
  selectedEntityIdentifier : Option CanvasEntityIdentifier
  sessionRef : Nat
  sessionIsActive : Bool
deriving DecidableEq, Repr

/-- The manager state relevant to the verified operations: the three
id-keyed adapter collections (JavaScript Map modelled as an
insertion-ordered list with unique ids), the inpaint mask singleton
adapter, a fresh-tag counter for adapter construction, the previous
snapshot, the first-render flag and the transform target channel
value. -/
structure Manager where
  layers : List Adapter
  controlAdapters : List Adapter
  regions : List Adapter
  inpaintMask : Adapter
  counter : Nat
  prevState : CanvasV2State
  isFirstRender : Bool
  transformingEntity : Option CanvasEntityIdentifier
deriving DecidableEq, Repr

/-- The destroy half of collection reconciliation: every adapter whose id
is absent from the snapshot entity list is destroyed and removed from
the collection (the first loop of renderRegions, renderControlAdapters
and the layers block of render). -/
def destroyPass (entities : List Entity) (adapters : List Adapter) :
    List Adapter × List Effect :=
  match adapters with
  | [] => ([], [])
  | a :: rest =>
    let r := destroyPass entities rest
    if entities.any (fun e => e.id = a.id) then (a :: r.1, r.2)
    else (r.1, Effect.destroyAdapter a :: r.2)

/-- The create-and-update half of collection reconciliation: for every
snapshot entity in order, construct a fresh adapter when none exists for
its id (appending it to the collection, as Map.set does for a new key),
then update it with the entity state (the second loop of renderRegions,
renderControlAdapters and the layers block of render). -/
def createPass (atype : EntityType) (entities : List Entity)
    (adapters : List Adapter) (counter : Nat) :
    List Adapter × Nat × List Effect :=
  match entities with
  | [] => (adapters, counter, [])
  | e :: rest =>
    match adapters.find? (fun a => a.id = e.id) with
    | some a =>
      let r := createPass atype rest adapters counter
      (r.1, r.2.1, Effect.updateAdapter a :: r.2.2)
    | none =>
      let a : Adapter := { id := e.id, type := atype, tag := counter }
      let r := createPass atype rest (adapters ++ [a]) (counter + 1)
      (r.1, r.2.1, Effect.createAdapter a :: Effect.updateAdapter a :: r.2.2)

/-- One reconciliation pass over one adapter collection: destroy the
adapters whose ids left the snapshot, then create or update per
snapshot entity.  Returns the new collection, the new fresh-tag counter
and the effect trace. -/
def reconcile (atype : EntityType) (entities : List Entity)
    (adapters : List Adapter) (counter : Nat) :
    List Adapter × Nat × List Effect :=
  let d := destroyPass entities adapters
  let c := createPass atype entities d.1 counter
  (c.1, c.2.1, d.2 ++ c.2.2)

lemma destroyPass_fst (entities : List Entity) (adapters : List Adapter) :
    (destroyPass entities adapters).1 =
      adapters.filter (fun a => entities.any (fun e => e.id = a.id)) := by
  induction adapters with
  | nil => rfl
  | cons a rest ih =>
    by_cases h : entities.any (fun e => e.id = a.id)
    · simp [destroyPass, h, List.filter_cons, ih]
    · simp [destroyPass, h, List.filter_cons, ih]

lemma destroyPass_destroyed (entities : List Entity) (adapters : List Adapter)
    (x : Adapter) (hx : Effect.destroyAdapter x ∈ (destroyPass entities adapters).2) :
    x.id ∉ entities.map Entity.id := by
  induction adapters with
  | nil => simp [destroyPass] at hx
  | cons a rest ih =>
    by_cases h : entities.any (fun e => e.id = a.id)
    · simp only [destroyPass, h, if_pos] at hx
      exact ih hx
    · simp only [destroyPass, h, if_neg] at hx
      rcases List.mem_cons.mp hx with h1 | h1
      · cases h1
        intro hmem
        apply h
        simp only [List.any_eq_true, decide_eq_true_eq]
        rcases List.mem_map.mp hmem with ⟨e, he, hid⟩
        exact ⟨e, he, hid⟩
      · exact ih h1

lemma createPass_append (atype : EntityType) (entities : List Entity)
    (adapters : List Adapter) (counter : Nat) :
    ∃ t, (createPass atype entities adapters counter).1 = adapters ++ t := by
  induction entities generalizing adapters counter with
  | nil => exact ⟨[], by simp [createPass]⟩
  | cons e rest ih =>
    cases hf : adapters.find? (fun a => a.id = e.id) with
    | some a =>
      simp only [createPass, hf]
      exact ih adapters counter
    | none =>
      simp only [createPass, hf]
      obtain ⟨t, ht⟩ := ih (adapters ++ [{ id := e.id, type := atype, tag := counter }]) (counter + 1)
      exact ⟨{ id := e.id, type := atype, tag := counter } :: t, by simp [ht]⟩

lemma createPass_mem_ids (atype : EntityType) (entities : List Entity)
    (adapters : List Adapter) (counter : Nat) (i : Nat) :
    i ∈ (createPass atype entities adapters counter).1.map Adapter.id ↔
      i ∈ adapters.map Adapter.id ∨ i ∈ entities.map Entity.id := by
  induction entities generalizing adapters counter with
  | nil => simp [createPass]
  | cons e rest ih =>
    cases hf : adapters.find? (fun a => a.id = e.id) with
    | some a =>
      have ha2 : a.id = e.id := by simpa using List.find?_some hf
      have ha1 : a ∈ adapters := List.mem_of_find?_eq_some hf
      have he : e.id ∈ adapters.map Adapter.id := List.mem_map.mpr ⟨a, ha1, ha2⟩
      simp only [createPass, hf, ih, List.map_cons]
      constructor
      · rintro (h | h)
        · exact Or.inl h
        · exact Or.inr (List.mem_cons_of_mem _ h)
      · rintro (h | h)
        · exact Or.inl h
        · rcases List.mem_cons.mp h with h2 | h2
          · exact Or.inl (h2 ▸ he)
          · exact Or.inr h2
    | none =>
      simp only [createPass, hf, ih, List.map_append, List.mem_append,
        List.map_cons, List.map_nil, List.mem_cons, List.mem_singleton,
        List.not_mem_nil, or_false]
      tauto

lemma createPass_nodup (atype : EntityType) (entities : List Entity)
    (adapters : List Adapter) (counter : Nat)
    (h : (adapters.map Adapter.id).Nodup) :
    ((createPass atype entities adapters counter).1.map Adapter.id).Nodup := by
  induction entities generalizing adapters counter with
  | nil => simpa [createPass] using h
  | cons e rest ih =>
    cases hf : adapters.find? (fun a => a.id = e.id) with
    | some a =>
      simp only [createPass, hf]
      exact ih adapters counter h
    | none =>
      simp only [createPass, hf]
      apply ih
      simp only [List.map_append, List.map_cons, List.map_nil]
      rw [List.nodup_append]
      refine ⟨h, List.nodup_singleton _, ?_⟩
      intro x hx hx2
      simp only [List.mem_singleton] at hx2
      rcases List.mem_map.mp hx with ⟨b, hb, hbi⟩
      have h3 := List.find?_eq_none.mp hf b hb
      simp only [decide_eq_true_eq] at h3
      exact h3 (by rw [hbi, hx2])

lemma find?_filter_keep {α : Type} (l : List α) (p q : α → Bool)
    (h : ∀ x, q x = true → p x = true) :
    (l.filter p).find? q = l.find? q := by
  induction l with
  | nil => rfl
  | cons a rest ih =>
    by_cases hq : q a = true
    · rw [List.filter_cons, if_pos (h a hq)]
      rw [List.find?_cons_of_pos _ hq, List.find?_cons_of_pos _ hq]
    · by_cases hp : p a = true
      · rw [List.filter_cons, if_pos hp]
        rw [List.find?_cons_of_neg _ hq, List.find?_cons_of_neg _ hq]
        exact ih
      · rw [List.filter_cons, if_neg hp]
        rw [List.find?_cons_of_neg _ hq]
        exact ih

lemma find?_append_some {α : Type} (l1 l2 : List α) (p : α → Bool) (a : α)
    (h : l1.find? p = some a) : (l1 ++ l2).find? p = some a := by
  induction l1 with
  | nil => simp at h
  | cons x rest ih =>
    by_cases hx : p x = true
    · rw [List.find?_cons_of_pos _ hx] at h
      rw [List.cons_append, List.find?_cons_of_pos _ hx]
      exact h
    · rw [List.find?_cons_of_neg _ hx] at h
      rw [List.cons_append, List.find?_cons_of_neg _ hx]
      exact ih h

lemma createPass_find_kept (atype : EntityType) (entities : List Entity)
    (adapters : List Adapter) (counter : Nat) (p : Adapter → Bool) (a : Adapter)
    (h : adapters.find? p = some a) :
    (createPass atype entities adapters counter).1.find? p = some a := by
  obtain ⟨t, ht⟩ := createPass_append atype entities adapters counter
  rw [ht]
  exact find?_append_some _ _ _ _ h

lemma createPass_no_destroy (atype : EntityType) (entities : List Entity)
    (adapters : List Adapter) (counter : Nat) (x : Adapter) :
    Effect.destroyAdapter x ∉ (createPass atype entities adapters counter).2.2 := by
  induction entities generalizing adapters counter with
  | nil => simp [createPass]
  | cons e rest ih =>
    cases hf : adapters.find? (fun a => a.id = e.id) with
    | some a =>
      simp only [createPass, hf, List.mem_cons]
      rintro (h | h)
      · cases h
      · exact ih _ _ h
    | none =>
      simp only [createPass, hf, List.mem_cons]
      rintro (h | h | h)
      · cases h
      · cases h
      · exact ih _ _ h

/-- Claim C1: for every adapter collection (drawable layers, control
adapters, region guides) and any reconciliation pass driven by a
snapshot entity list, the resulting collection has no two adapters with
the same id, and its id set equals the snapshot entity id set exactly:
no adapter survives whose id is absent from the snapshot, and every
snapshot id has an adapter.  The no-duplicate hypothesis on the input
collection is the Map-key invariant, which the conclusion shows is
preserved, so it holds over any sequence of snapshots starting from the
empty collections the constructor creates. -/
theorem reconcile_id_set_matches_snapshot (atype : EntityType)
    (entities : List Entity) (adapters : List Adapter) (counter : Nat)
    (hnd : (adapters.map Adapter.id).Nodup) :
    ((reconcile atype entities adapters counter).1.map Adapter.id).Nodup ∧
    ∀ i : Nat, i ∈ (reconcile atype entities adapters counter).1.map Adapter.id ↔
      i ∈ entities.map Entity.id := by
  have hd : (destroyPass entities adapters).1 =
      adapters.filter (fun a => entities.any (fun e => e.id = a.id)) :=
    destroyPass_fst entities adapters
  have hdnd : ((destroyPass entities adapters).1.map Adapter.id).Nodup := by
    rw [hd]
    exact List.Nodup.sublist (List.Sublist.map _ (List.filter_sublist _)) hnd
  have hdsub : ∀ i : Nat, i ∈ (destroyPass entities adapters).1.map Adapter.id →
      i ∈ entities.map Entity.id := by
    intro i hi
    rw [hd] at hi
    rcases List.mem_map.mp hi with ⟨b, hb, hbi⟩
    have hb2 := List.of_mem_filter hb
    simp only [List.any_eq_true, decide_eq_true_eq] at hb2
    rcases hb2 with ⟨e, he, hei⟩
    exact List.mem_map.mpr ⟨e, he, by rw [hei, hbi]⟩
  constructor
  · exact createPass_nodup atype entities _ counter hdnd
  · intro i
    rw [show (reconcile atype entities adapters counter).1 =
      (createPass atype entities (destroyPass entities adapters).1 counter).1 from rfl]
    rw [createPass_mem_ids]
    constructor
    · rintro (h | h)
      · exact hdsub i h
      · exact h
    · exact fun h => Or.inr h

/-- Claim C3: an adapter whose id is present in the snapshot driving a
reconciliation pass is preserved as the same instance (the lookup for
its id returns the identical adapter record, creation tag included,
before and after the pass), and an adapter destruction is emitted only
for ids absent from the snapshot entity list.  Hence across two
consecutive snapshots both containing an id, the adapter bound to that
id is never destroyed and recreated merely because its state changed. -/
theorem reconcile_preserves_adapter_instance (atype : EntityType)
    (entities : List Entity) (adapters : List Adapter) (counter : Nat)
    (a : Adapter)
    (hmem : a.id ∈ entities.map Entity.id)
    (hfind : adapters.find? (fun x => x.id = a.id) = some a) :
    (reconcile atype entities adapters counter).1.find? (fun x => x.id = a.id) = some a ∧
    ∀ x : Adapter, Effect.destroyAdapter x ∈ (reconcile atype entities adapters counter).2.2 →
      x.id ∉ entities.map Entity.id := by
  constructor
  · have hkeep : (destroyPass entities adapters).1.find? (fun x => x.id = a.id) = some a := by
      rw [destroyPass_fst]
      rw [find?_filter_keep]
      · exact hfind
      · intro x hx
        simp only [decide_eq_true_eq] at hx
        simp only [List.any_eq_true, decide_eq_true_eq]
        rcases List.mem_map.mp hmem with ⟨e, he, hei⟩
        exact ⟨e, he, by rw [hei, hx]⟩
    exact createPass_find_kept atype entities _ counter _ a hkeep
  · intro x hx
    rw [show (reconcile atype entities adapters counter).2.2 =
      (destroyPass entities adapters).2 ++
        (createPass atype entities (destroyPass entities adapters).1 counter).2.2 from rfl] at hx
    rcases List.mem_append.mp hx with h | h
    · exact destroyPass_destroyed entities adapters x h
    · exact absurd h (createPass_no_destroy atype entities _ counter x)

/-- The entityState local of getEntity: resolve the identifier against
the snapshot sub-tree selected by its type tag (the inpaint mask is a
singleton, not an id-keyed collection). -/
def entityStateOf (s : CanvasV2State) (identifier : CanvasEntityIdentifier) :
    Option Entity :=
  match identifier.type with
  | EntityType.layer => s.layersEntities.find? (fun i => i.id = identifier.id)
  | EntityType.control_adapter => s.controlAdaptersEntities.find? (fun i => i.id = identifier.id)
  | EntityType.regional_guidance => s.regionsEntities.find? (fun i => i.id = identifier.id)
  | EntityType.inpaint_mask => some s.inpaintMask

/-- The entityAdapter local of getEntity: resolve the identifier against
the manager collection selected by its type tag. -/
def entityAdapterOf (m : Manager) (identifier : CanvasEntityIdentifier) :
    Option Adapter :=
  match identifier.type with
  | EntityType.layer => m.layers.find? (fun a => a.id = identifier.id)
  | EntityType.control_adapter => m.controlAdapters.find? (fun a => a.id = identifier.id)
  | EntityType.regional_guidance => m.regions.find? (fun a => a.id = identifier.id)
  | EntityType.inpaint_mask => some m.inpaintMask

/-- getEntity: pair the resolved entity state with the resolved adapter,
but only when both exist and their declared type tags agree; in every
other case (including a tag mismatch) return none. -/
def getEntity (s : CanvasV2State) (m : Manager)
    (identifier : CanvasEntityIdentifier) : Option (Entity × Adapter) :=
  match entityStateOf s identifier, entityAdapterOf m identifier with
  | some st, some ad => if st.type = ad.type then some (st, ad) else none
  | _, _ => none

/-- getSelectedEntity: resolve the snapshot selected identifier, when
one is set. -/
def getSelectedEntity (s : CanvasV2State) (m : Manager) :
    Option (Entity × Adapter) :=
  match s.selectedEntityIdentifier with
  | some identifier => getEntity s m identifier
  | none => none

/-- getCurrentFill: the tool fill, overridden to opaque white when the
selected entity state is a region guide or the inpaint mask (those two
entity types render their color via a compositing rect). -/
def getCurrentFill (s : CanvasV2State) (m : Manager) : RgbaColor :=
  match getSelectedEntity s m with
  | some p =>
    if p.1.type = EntityType.regional_guidance ∨ p.1.type = EntityType.inpaint_mask then
      RGBA_WHITE
    else s.toolFill
  | none => s.toolFill

/-- getBrushPreviewFill: the tool fill, overridden for a selected region
guide or inpaint mask by the selected entity state fill with the alpha
channel replaced by the settings mask opacity. -/
def getBrushPreviewFill (s : CanvasV2State) (m : Manager) : RgbaColor :=
  match getSelectedEntity s m with
  | some p =>
    if p.1.type = EntityType.regional_guidance ∨ p.1.type = EntityType.inpaint_mask then
      { p.1.fill with a := s.settingsMaskOpacity }
    else s.toolFill
  | none => s.toolFill

/-- getTransformingLayer: resolve the transform target identifier to a
live adapter; only the layer collection and the inpaint mask singleton
are considered, every other type tag resolves to none. -/
def getTransformingLayer (m : Manager) : Option Adapter :=
  match m.transformingEntity with
  | none => none
  | some te =>
    match te.type with
    | EntityType.layer => m.layers.find? (fun a => a.id = te.id)
    | EntityType.inpaint_mask => some m.inpaintMask
    | _ => none

/-- getIsTransforming: whether a transform target is set. -/
def getIsTransforming (m : Manager) : Bool :=
  m.transformingEntity.isSome

/-- startTransform: a no-op while already transforming; otherwise the
selected entity must resolve to an adapter that is a drawable layer or
the inpaint mask (the assert in the source, modelled as Except.error),
in which case the begin-transform operation of that adapter runs and the
transform target is published from the selected entity state. -/
def startTransform (s : CanvasV2State) (m : Manager) :
    Except Unit (Manager × List Effect) :=
  if getIsTransforming m then Except.ok (m, [])
  else
    match getSelectedEntity s m with
    | some p =>
      if p.2.type = EntityType.layer ∨ p.2.type = EntityType.inpaint_mask then
        Except.ok
          ({ m with transformingEntity := some { id := p.1.id, type := p.1.type } },
            [Effect.startTransformOp p.2])
      else Except.error ()
    | none => Except.error ()

/-- applyTransform: when the transform target resolves to a live
adapter, run its commit operation; in every case publish none as the new
transform target. -/
def applyTransform (m : Manager) : Manager × List Effect :=
  match getTransformingLayer m with
  | some l => ({ m with transformingEntity := none }, [Effect.applyTransformOp l])
  | none => ({ m with transformingEntity := none }, [])

/-- cancelTransform: when the transform target resolves to a live
adapter, run its discard operation; in every case publish none as the
new transform target. -/
def cancelTransform (m : Manager) : Manager × List Effect :=
  match getTransformingLayer m with
  | some l => ({ m with transformingEntity := none }, [Effect.stopTransformOp l])
  | none => ({ m with transformingEntity := none }, [])

/-- Extents of a bounding box as the worker reports them. -/
structure Extents where
  minX : Int
  minY : Int
  maxX : Int
  maxY : Int
deriving DecidableEq, Repr

/-- A pending bbox task table entry: the generated task id paired with a
tag identifying the onComplete callback (callbacks are opaque; an
invocation is observable as the tag applied to the delivered extents).
The table is the _tasks Map, modelled as an insertion-ordered list. -/
abbrev TaskTable : Type := List (Nat × Nat)

/-- An inbound worker message: a log forwarded to the worker logging
sink, or an extents result keyed by task id. -/
inductive WorkerMessage
  | log (level : Nat) (message : Nat)
  | extents (id : Nat) (extents : Option Extents)
deriving DecidableEq, Repr

/-- requestBbox: generate a fresh task id (nanoid, modelled by a strictly
increasing counter), record the task and its callback in the pending
table (Map.set appends a new key), and post the task to the worker.
Returns the new table, the new id counter and the generated id. -/
def requestBbox (tasks : TaskTable) (idCounter : Nat) (onComplete : Nat) :
    TaskTable × Nat × Nat :=
  let id := idCounter
  (List.append tasks [(id, onComplete)], idCounter + 1, id)

/-- The worker onmessage handler: a log message only forwards to the
logging sink; an extents result looks its id up in the pending table,
returns silently when the id is unknown, and otherwise invokes the
callback with the delivered extents and deletes the table entry.
Returns the new table and the list of callback invocations performed,
each as the callback tag paired with the delivered extents. -/
def onMessage (tasks : TaskTable) (msg : WorkerMessage) :
    TaskTable × List (Nat × Option Extents) :=
  match msg with
  | WorkerMessage.log _ _ => (tasks, [])
  | WorkerMessage.extents id ext =>
    match List.find? (fun t => t.1 = id) tasks with
    | none => (tasks, [])
    | some t => (List.eraseP (fun q => q.1 = id) tasks, [(t.2, ext)])

/-- A scene node whose z-index arrangeEntities assigns: the background
layer, the initial image layer, one konva layer per live adapter in the
three collections, the inpaint mask layer and the preview layer. -/
inductive SceneNode
  | background
  | initialImage
  | layerOf (a : Adapter)
  | controlAdapterOf (a : Adapter)
  | regionOf (a : Adapter)
  | inpaintMask
  | preview
deriving DecidableEq, Repr

/-- One category loop of arrangeEntities: walk the snapshot entity list
in order and, for each entity whose id has a live adapter in the
collection, assign the next z-index (the optional-chaining call in the
source skips both the assignment and the increment when the adapter is
missing).  Returns the assignments in order and the final z counter. -/
def arrangeLoop (adapters : List Adapter) (entities : List Entity)
    (mk : Adapter → SceneNode) (z : Nat) :
    List (SceneNode × Nat) × Nat :=
  match entities with
  | [] => ([], z)
  | e :: rest =>
    match adapters.find? (fun a => a.id = e.id) with
    | none => arrangeLoop adapters rest mk z
    | some a =>
      let r := arrangeLoop adapters rest mk (z + 1)
      ((mk a, z + 1) :: r.1, r.2)

/-- arrangeEntities: assign z-indices from a counter starting at 0 with
pre-increment, in the fixed order background, initial image, drawable
layers in snapshot order, control adapters in snapshot order, region
guides in snapshot order, inpaint mask, preview. -/
def arrangeEntities (s : CanvasV2State) (m : Manager) :
    List (SceneNode × Nat) :=
  let z0 : Nat := 0
  let zBg := z0 + 1
  let zInit := zBg + 1
  let rl := arrangeLoop m.layers s.layersEntities SceneNode.layerOf zInit
  let rc := arrangeLoop m.controlAdapters s.controlAdaptersEntities SceneNode.controlAdapterOf rl.2
  let rr := arrangeLoop m.regions s.regionsEntities SceneNode.regionOf rc.2
  (SceneNode.background, zBg) :: (SceneNode.initialImage, zInit) ::
    (rl.1 ++ rc.1 ++ rr.1 ++
      [(SceneNode.inpaintMask, rr.2 + 1), (SceneNode.preview, rr.2 + 2)])

/-- The selected entity id of a snapshot (the id the source reads with
optional chaining for its change comparisons). -/
def selId (s : CanvasV2State) : Option Nat :=
  s.selectedEntityIdentifier.map CanvasEntityIdentifier.id

/-- The body of render past the no-op fast path: reconcile each
collection whose sub-tree changed (or on the first render), re-render
the singleton views whose dependencies changed, publish the four value
channels, and finish with the arrangement pass; the previous snapshot
pointer is replaced and the first-render flag cleared. -/
def renderBody (state : CanvasV2State) (m : Manager) : Manager × List Effect :=
  let first := m.isFirstRender = true
  let prev := m.prevState
  let r1 :=
    if first ∨ state.layersEntitiesRef ≠ prev.layersEntitiesRef then
      reconcile EntityType.layer state.layersEntities m.layers m.counter
    else (m.layers, m.counter, [])
  let e2 :=
    if first ∨ state.initialImageRef ≠ prev.initialImageRef ∨
        state.bboxRectRef ≠ prev.bboxRectRef ∨
        state.toolSelected ≠ prev.toolSelected ∨ selId state ≠ selId prev then
      [Effect.renderInitialImage]
    else []
  let r3 :=
    if first ∨ state.regionsEntitiesRef ≠ prev.regionsEntitiesRef ∨
        state.settingsMaskOpacity ≠ prev.settingsMaskOpacity ∨
        state.toolSelected ≠ prev.toolSelected ∨ selId state ≠ selId prev then
      reconcile EntityType.regional_guidance state.regionsEntities m.regions r1.2.1
    else (m.regions, r1.2.1, [])
  let e4 :=
    if first ∨ state.inpaintMaskRef ≠ prev.inpaintMaskRef ∨
        state.settingsMaskOpacity ≠ prev.settingsMaskOpacity ∨
        state.toolSelected ≠ prev.toolSelected ∨ selId state ≠ selId prev then
      [Effect.updateAdapter m.inpaintMask]
    else []
  let r5 :=
    if first ∨ state.controlAdaptersEntitiesRef ≠ prev.controlAdaptersEntitiesRef ∨
        state.toolSelected ≠ prev.toolSelected ∨ selId state ≠ selId prev then
      reconcile EntityType.control_adapter state.controlAdaptersEntities
        m.controlAdapters r3.2.1
    else (m.controlAdapters, r3.2.1, [])
  let e6 :=
    [Effect.publish Chan.toolState, Effect.publish Chan.selectedEntityIdentifier,
      Effect.publish Chan.selectedEntity, Effect.publish Chan.currentFill]
  let e7 :=
    if first ∨ state.bboxRef ≠ prev.bboxRef ∨
        state.toolSelected ≠ prev.toolSelected ∨
        state.sessionIsActive ≠ prev.sessionIsActive then
      [Effect.renderBboxPreview]
    else []
  let e8 :=
    if first ∨ state.sessionRef ≠ prev.sessionRef then
      [Effect.renderStagingArea]
    else []
  let e9 :=
    if first ∨ state.layersEntitiesRef ≠ prev.layersEntitiesRef ∨
        state.controlAdaptersEntitiesRef ≠ prev.controlAdaptersEntitiesRef ∨
        state.regionsEntitiesRef ≠ prev.regionsEntitiesRef ∨
        state.inpaintMaskRef ≠ prev.inpaintMaskRef ∨ selId state ≠ selId prev then
      [Effect.arrange]
    else []
  ({ m with
      layers := r1.1
      regions := r3.1
      controlAdapters := r5.1
      counter := r5.2.1
      prevState := state
      isFirstRender := false },
    r1.2.2 ++ e2 ++ r3.2.2 ++ e4 ++ r5.2.2 ++ e6 ++ e7 ++ e8 ++ e9)

/-- render: the no-op fast path returns immediately with no effects when
the snapshot is reference-equal to the previously processed one and this
is not the first invocation; otherwise the full diff body runs. -/
def render (state : CanvasV2State) (m : Manager) : Manager × List Effect :=
  if state.ref = m.prevState.ref ∧ m.isFirstRender = false then (m, [])
  else renderBody state m

/-- A black opaque fill used by the sample states. -/
def fill0 : RgbaColor := { r := 0, g := 0, b := 0, a := 255 }

/-- The tool fill of the fill-rule example in the specification. -/
def fillSample : RgbaColor := { r := 10, g := 20, b := 30, a := 255 }

/-- A sample snapshot with empty collections and no selection. -/
def baseState : CanvasV2State :=
  { ref := 0, layersEntitiesRef := 0, layersEntities := []
    controlAdaptersEntitiesRef := 0, controlAdaptersEntities := []
    regionsEntitiesRef := 0, regionsEntities := []
    inpaintMaskRef := 0
    inpaintMask := { id := 100, type := EntityType.inpaint_mask, fill := fill0 }
    initialImageRef := 0, bboxRef := 0, bboxRectRef := 0
    toolSelected := 0, toolFill := fill0, settingsMaskOpacity := 128
    selectedEntityIdentifier := none, sessionRef := 0, sessionIsActive := false }

/-- A sample manager as the constructor leaves it: empty collections,
the inpaint mask singleton adapter, first render pending, no transform
target. -/
def baseManager : Manager :=
  { layers := [], controlAdapters := [], regions := []
    inpaintMask := { id := 100, type := EntityType.inpaint_mask, tag := 0 }
    counter := 1, prevState := baseState, isFirstRender := true
    transformingEntity := none }

/-- Claim C2: a render invocation whose snapshot is reference-equal to
the previously processed one, when it is not the first invocation,
returns immediately with no adapter creation, update or destruction and
no publish; consequently a second render call with no snapshot change
after any render call produces no effects and leaves the manager
unchanged. -/
theorem render_noop_fast_path (state : CanvasV2State) (m : Manager) :
    (state.ref = m.prevState.ref → m.isFirstRender = false → render state m = (m, [])) ∧
    render state (render state m).1 = ((render state m).1, []) := by
  constructor
  · intro h1 h2
    simp [render, h1, h2]
  · by_cases h : state.ref = m.prevState.ref ∧ m.isFirstRender = false
    · rw [show render state m = (m, []) from by simp [render, h]]
      simp [render, h]
    · rw [show render state m = renderBody state m from by simp [render, h]]
      have hp : (renderBody state m).1.prevState = state := rfl
      have hf : (renderBody state m).1.isFirstRender = false := rfl
      simp [render, hp, hf]

/-- Claim C2 witness: the fast path at a concrete already-rendered
manager. -/
theorem render_noop_fast_path_witness :
    render baseState { baseManager with isFirstRender := false } =
      ({ baseManager with isFirstRender := false }, []) :=
  (render_noop_fast_path baseState { baseManager with isFirstRender := false }).1
    (by decide) (by decide)

/-- An entity whose declared type tag (region guide) contradicts the
sub-tree it sits in (the drawable layers list): a corrupted snapshot. -/
def mismatchEntity : Entity :=
  { id := 7, type := EntityType.regional_guidance, fill := fill0 }

/-- The live layer adapter with the same id as mismatchEntity. -/
def mismatchAdapter : Adapter := { id := 7, type := EntityType.layer, tag := 0 }

/-- A snapshot whose layers list holds the mismatched entity. -/
def mismatchState : CanvasV2State :=
  { baseState with layersEntities := [mismatchEntity] }

/-- A manager whose layer collection holds the adapter for id 7. -/
def mismatchManager : Manager := { baseManager with layers := [mismatchAdapter] }

/-- The identifier naming the mismatched pair. -/
def mismatchIdent : CanvasEntityIdentifier := { id := 7, type := EntityType.layer }

/-- Claim C5 counterexample: at a concrete identifier that resolves to
an entity state and an adapter with different declared type tags,
getEntity returns none, a silent refusal: the source has no assertion in
getEntity, so the engine does not fail loudly on the mismatch as the
claim states. -/
theorem getEntity_mismatch_counterexample :
    entityStateOf mismatchState mismatchIdent = some mismatchEntity ∧
    entityAdapterOf mismatchManager mismatchIdent = some mismatchAdapter ∧
    mismatchEntity.type ≠ mismatchAdapter.type ∧
    getEntity mismatchState mismatchManager mismatchIdent = none := by
  decide

/-- Claim C5 amended: when the identifier resolves to an entity state
and an adapter whose declared type tags do not match, the engine refuses
the pairing by returning no entity (none), silently and without raising
any assertion. -/
theorem getEntity_type_mismatch_refused (s : CanvasV2State) (m : Manager)
    (identifier : CanvasEntityIdentifier) (st : Entity) (ad : Adapter)
    (h1 : entityStateOf s identifier = some st)
    (h2 : entityAdapterOf m identifier = some ad)
    (h3 : st.type ≠ ad.type) :
    getEntity s m identifier = none := by
  simp [getEntity, h1, h2, h3]

/-- Claim C5 amended witness: the refusal at the concrete mismatched
input. -/
theorem getEntity_type_mismatch_refused_witness :
    getEntity mismatchState mismatchManager mismatchIdent = none :=
  getEntity_type_mismatch_refused mismatchState mismatchManager mismatchIdent
    mismatchEntity mismatchAdapter (by decide) (by decide) (by decide)

/-- Claim C7: getCurrentFill returns the tool configured fill color,
except that when the selected entity resolves to a region guide or the
inpaint mask it returns opaque white regardless of the tool fill; for a
selected drawable layer (or control adapter, or no resolved selection)
it returns the tool fill unchanged. -/
theorem getCurrentFill_rule (s : CanvasV2State) (m : Manager) :
    (∀ p : Entity × Adapter, getSelectedEntity s m = some p →
      ((p.1.type = EntityType.regional_guidance ∨ p.1.type = EntityType.inpaint_mask) →
        getCurrentFill s m = RGBA_WHITE) ∧
      (p.1.type = EntityType.layer → getCurrentFill s m = s.toolFill) ∧
      (p.1.type = EntityType.control_adapter → getCurrentFill s m = s.toolFill)) ∧
    (getSelectedEntity s m = none → getCurrentFill s m = s.toolFill) := by
  constructor
  · intro p hp
    refine ⟨?_, ?_, ?_⟩
    · intro ht
      simp [getCurrentFill, hp, ht]
    · intro ht
      simp [getCurrentFill, hp, ht]
    · intro ht
      simp [getCurrentFill, hp, ht]
  · intro h
    simp [getCurrentFill, h]

/-- The region-guide entity of the fill-rule example. -/
def regionEntity5 : Entity :=
  { id := 5, type := EntityType.regional_guidance, fill := fill0 }

/-- The live region adapter of the fill-rule example. -/
def regionAdapter5 : Adapter :=
  { id := 5, type := EntityType.regional_guidance, tag := 0 }

/-- A snapshot selecting the region guide with tool fill 10/20/30/255,
the example of the specification. -/
def selRegionState : CanvasV2State :=
  { baseState with
      regionsEntities := [regionEntity5]
      toolFill := fillSample
      selectedEntityIdentifier := some { id := 5, type := EntityType.regional_guidance } }

/-- A manager whose region collection holds the adapter for id 5. -/
def selRegionManager : Manager := { baseManager with regions := [regionAdapter5] }

/-- Claim C7 witness: with the region guide selected and tool fill
10/20/30/255, getCurrentFill is opaque white. -/
theorem getCurrentFill_rule_witness :
    getCurrentFill selRegionState selRegionManager = RGBA_WHITE :=
  ((getCurrentFill_rule selRegionState selRegionManager).1
    (regionEntity5, regionAdapter5) (by decide)).1 (by decide)

lemma manager_clear_eq (m : Manager) (hm : m.transformingEntity = none) :
    ({ m with transformingEntity := none } : Manager) = m := by
  cases m
  simp_all

/-- Claim C6: the transform state machine has exactly the idle and
transforming states: startTransform while already transforming is a
no-op; startTransform while idle with no selection resolving to a
transformable adapter (drawable layer or inpaint mask) raises the
contract assertion; applyTransform and cancelTransform when idle invoke
no adapter operation; and after either of them the transform target is
cleared, so the state is idle. -/
theorem transform_state_machine (s : CanvasV2State) (m : Manager) :
    (getIsTransforming m = true → startTransform s m = Except.ok (m, [])) ∧
    (getIsTransforming m = false →
      (∀ p : Entity × Adapter, getSelectedEntity s m = some p →
        p.2.type ≠ EntityType.layer ∧ p.2.type ≠ EntityType.inpaint_mask) →
      startTransform s m = Except.error ()) ∧
    (getIsTransforming m = false →
      applyTransform m = (m, []) ∧ cancelTransform m = (m, [])) ∧
    ((applyTransform m).1.transformingEntity = none ∧
      (cancelTransform m).1.transformingEntity = none) := by
  refine ⟨?_, ?_, ?_, ?_, ?_⟩
  · intro h
    simp [startTransform, h]
  · intro h hsel
    cases hq : getSelectedEntity s m with
    | none => simp [startTransform, h, hq]
    | some p =>
      have := hsel p hq
      simp [startTransform, h, hq, this.1, this.2]
  · intro h
    have hm : m.transformingEntity = none := by
      cases hm2 : m.transformingEntity with
      | none => rfl
      | some te =>
        rw [getIsTransforming, hm2] at h
        simp at h
    have hg : getTransformingLayer m = none := by
      simp [getTransformingLayer, hm]
    constructor
    · simp [applyTransform, hg, manager_clear_eq m hm]
    · simp [cancelTransform, hg, manager_clear_eq m hm]
  · cases hg : getTransformingLayer m with
    | none => simp [applyTransform, hg]
    | some l => simp [applyTransform, hg]
  · cases hg : getTransformingLayer m with
    | none => simp [cancelTransform, hg]
    | some l => simp [cancelTransform, hg]

/-- A manager already in the transforming state on the inpaint mask. -/
def transformingManager : Manager :=
  { baseManager with
      transformingEntity := some { id := 100, type := EntityType.inpaint_mask } }

/-- Claim C6 witness: the no-op guard at a transforming manager, the
contract assertion at an idle manager with no resolvable selection, and
the idle no-op of applyTransform, all at concrete inputs. -/
theorem transform_state_machine_witness :
    startTransform baseState transformingManager = Except.ok (transformingManager, []) ∧
    startTransform baseState baseManager = Except.error () ∧
    applyTransform baseManager = (baseManager, []) :=
  ⟨(transform_state_machine baseState transformingManager).1 (by decide),
    (transform_state_machine baseState baseManager).2.1 (by decide)
      (fun p hp => by
        rw [show getSelectedEntity baseState baseManager =
          (none : Option (Entity × Adapter)) from rfl] at hp
        exact Option.noConfusion hp),
    ((transform_state_machine baseState baseManager).2.2.1 (by decide)).1⟩

/-- Claim C10: applyTransform and cancelTransform always clear the
transform target and return to idle, even when the recorded transforming
identifier no longer resolves to a live drawable-layer or inpaint-mask
adapter (its type tag is control adapter or region guide, or it is a
layer id with no live adapter in the collection); in that case no
adapter transform operation is invoked and no error is raised. -/
theorem transform_clears_unresolvable_target (m : Manager)
    (te : CanvasEntityIdentifier)
    (hm : m.transformingEntity = some te)
    (hu : te.type = EntityType.control_adapter ∨
      te.type = EntityType.regional_guidance ∨
      (te.type = EntityType.layer ∧ m.layers.find? (fun a => a.id = te.id) = none)) :
    getTransformingLayer m = none ∧
    applyTransform m = ({ m with transformingEntity := none }, []) ∧
    cancelTransform m = ({ m with transformingEntity := none }, []) := by
  have hg : getTransformingLayer m = none := by
    rcases hu with h | h | ⟨h1, h2⟩
    · simp [getTransformingLayer, hm, h]
    · simp [getTransformingLayer, hm, h]
    · simp [getTransformingLayer, hm, h1, h2]
  exact ⟨hg, by simp [applyTransform, hg], by simp [cancelTransform, hg]⟩

/-- A manager whose transform target records a region-guide identifier,
which getTransformingLayer never resolves. -/
def staleManager : Manager :=
  { baseManager with
      transformingEntity := some { id := 9, type := EntityType.regional_guidance } }

/-- Claim C10 witness: the stale transform target is cleared with no
adapter operation at a concrete manager. -/
theorem transform_clears_unresolvable_target_witness :
    getTransformingLayer staleManager = none ∧
    applyTransform staleManager = ({ staleManager with transformingEntity := none }, []) ∧
    cancelTransform staleManager = ({ staleManager with transformingEntity := none }, []) :=
  transform_clears_unresolvable_target staleManager
    { id := 9, type := EntityType.regional_guidance } (by decide)
    (Or.inr (Or.inl (by decide)))

/-- The fill of the region guide in the brush-preview counterexample,
distinct from white in its color channels. -/
def c9Fill : RgbaColor := { r := 10, g := 20, b := 30, a := 40 }

/-- The region-guide entity of the brush-preview counterexample. -/
def c9Entity : Entity := { id := 6, type := EntityType.regional_guidance, fill := c9Fill }

/-- The live region adapter of the brush-preview counterexample. -/
def c9Adapter : Adapter := { id := 6, type := EntityType.regional_guidance, tag := 0 }

/-- A snapshot selecting the region guide with entity fill 10/20/30/40,
tool fill 10/20/30/255 and mask opacity 128. -/
def c9State : CanvasV2State :=
  { baseState with
      regionsEntities := [c9Entity]
      toolFill := fillSample
      settingsMaskOpacity := 128
      selectedEntityIdentifier := some { id := 6, type := EntityType.regional_guidance } }

/-- A manager whose region collection holds the adapter for id 6. -/
def c9Manager : Manager := { baseManager with regions := [c9Adapter] }

/-- Claim C9 counterexample: with the region guide of fill 10/20/30/40
selected and mask opacity 128, getCurrentFill is opaque white but
getBrushPreviewFill is 10/20/30/128, not white with substituted alpha
255/255/255/128: the source substitutes the mask opacity into the
selected entity state fill, not into the white fill of the
getCurrentFill selection rule. -/
theorem getBrushPreviewFill_counterexample :
    getSelectedEntity c9State c9Manager = some (c9Entity, c9Adapter) ∧
    getCurrentFill c9State c9Manager = RGBA_WHITE ∧
    getBrushPreviewFill c9State c9Manager = { r := 10, g := 20, b := 30, a := 128 } ∧
    getBrushPreviewFill c9State c9Manager ≠ { r := 255, g := 255, b := 255, a := 128 } := by
  decide

/-- Claim C9 amended: for a selected mask-like entity (region guide or
inpaint mask), getBrushPreviewFill returns the selected entity state
own fill color with its alpha channel replaced by the settings
mask-opacity value; for any other selection it returns the tool fill
unchanged. -/
theorem getBrushPreviewFill_rule (s : CanvasV2State) (m : Manager) :
    (∀ p : Entity × Adapter, getSelectedEntity s m = some p →
      ((p.1.type = EntityType.regional_guidance ∨ p.1.type = EntityType.inpaint_mask) →
        getBrushPreviewFill s m = { p.1.fill with a := s.settingsMaskOpacity }) ∧
      (p.1.type = EntityType.layer → getBrushPreviewFill s m = s.toolFill) ∧
      (p.1.type = EntityType.control_adapter → getBrushPreviewFill s m = s.toolFill)) ∧
    (getSelectedEntity s m = none → getBrushPreviewFill s m = s.toolFill) := by
  constructor
  · intro p hp
    refine ⟨?_, ?_, ?_⟩
    · intro ht
      simp [getBrushPreviewFill, hp, ht]
    · intro ht
      simp [getBrushPreviewFill, hp, ht]
    · intro ht
      simp [getBrushPreviewFill, hp, ht]
  · intro h
    simp [getBrushPreviewFill, h]

/-- Claim C9 amended witness: the substituted fill at the concrete
region-guide selection. -/
theorem getBrushPreviewFill_rule_witness :
    getBrushPreviewFill c9State c9Manager = { r := 10, g := 20, b := 30, a := 128 } :=
  ((getBrushPreviewFill_rule c9State c9Manager).1 (c9Entity, c9Adapter)
    (by decide)).1 (by decide)

lemma find?_append_of_none {α : Type} (l1 l2 : List α) (p : α → Bool)
    (h : l1.find? p = none) : (l1 ++ l2).find? p = l2.find? p := by
  induction l1 with
  | nil => rfl
  | cons x rest ih =>
    by_cases hx : p x = true
    · rw [List.find?_cons_of_pos _ hx] at h
      exact absurd h (by simp)
    · rw [List.find?_cons_of_neg _ hx] at h
      rw [List.cons_append, List.find?_cons_of_neg _ hx]
      exact ih h

/-- Claim C8: a requestBbox call followed by a worker extents response
carrying the generated task id invokes the recorded callback exactly
once with the delivered extents (the invocation list is the singleton of
that callback and payload) and removes the entry from the pending table;
after the removal the same response invokes nothing; and any response
whose id is not in the table invokes no callback and raises no error,
leaving the table unchanged.  The freshness hypothesis is the nanoid
contract: generated ids are never reused, modelled by a counter
exceeding every id in the table. -/
theorem bbox_task_correlation (tasks : TaskTable) (idCounter cb : Nat)
    (ext : Option Extents)
    (hfresh : ∀ p ∈ tasks, p.1 < idCounter) :
    onMessage (requestBbox tasks idCounter cb).1
        (WorkerMessage.extents (requestBbox tasks idCounter cb).2.2 ext) =
      (tasks, [(cb, ext)]) ∧
    onMessage tasks (WorkerMessage.extents idCounter ext) = (tasks, []) ∧
    (∀ tasks2 : TaskTable, ∀ id2 : Nat, ∀ e2 : Option Extents,
      (∀ p ∈ tasks2, p.1 ≠ id2) →
      onMessage tasks2 (WorkerMessage.extents id2 e2) = (tasks2, [])) := by
  have hne : ∀ p ∈ tasks, ¬(p.1 = idCounter) := by
    intro p hp
    exact Nat.ne_of_lt (hfresh p hp)
  have hnone : List.find? (fun t => t.1 = idCounter) tasks = none := by
    rw [List.find?_eq_none]
    intro x hx
    simp only [decide_eq_true_eq]
    exact hne x hx
  refine ⟨?_, ?_, ?_⟩
  · show onMessage (List.append tasks [(idCounter, cb)])
      (WorkerMessage.extents idCounter ext) = (tasks, [(cb, ext)])
    rw [onMessage]
    rw [show List.append tasks [(idCounter, cb)] = tasks ++ [(idCounter, cb)] from rfl]
    rw [find?_append_of_none tasks [(idCounter, cb)] _ hnone]
    rw [show List.find? (fun t => t.1 = idCounter) [(idCounter, cb)] =
      some (idCounter, cb) from by simp]
    rw [List.eraseP_append_right _ (by
      intro b hb
      simp only [decide_eq_true_eq]
      exact hne b hb)]
    simp
  · rw [onMessage, hnone]
  · intro tasks2 id2 e2 h2
    have hn2 : List.find? (fun t => t.1 = id2) tasks2 = none := by
      rw [List.find?_eq_none]
      intro x hx
      simp only [decide_eq_true_eq]
      exact h2 x hx
    rw [onMessage, hn2]

/-- Claim C8 witness: the correlation at a concrete table holding one
older task. -/
theorem bbox_task_correlation_witness :
    onMessage (requestBbox [(0, 50)] 1 60).1
        (WorkerMessage.extents (requestBbox [(0, 50)] 1 60).2.2
          (some { minX := 1, minY := 2, maxX := 3, maxY := 4 })) =
      ([(0, 50)], [(60, some { minX := 1, minY := 2, maxX := 3, maxY := 4 })]) :=
  (bbox_task_correlation [(0, 50)] 1 60
    (some { minX := 1, minY := 2, maxX := 3, maxY := 4 }) (by decide)).1

lemma arrangeLoop_z_le (adapters : List Adapter) (entities : List Entity)
    (mk : Adapter → SceneNode) (z : Nat) :
    z ≤ (arrangeLoop adapters entities mk z).2 := by
  induction entities generalizing z with
  | nil => exact Nat.le_refl z
  | cons e rest ih =>
    cases hf : adapters.find? (fun a => a.id = e.id) with
    | none =>
      simp only [arrangeLoop, hf]
      exact ih z
    | some a =>
      simp only [arrangeLoop, hf]
      exact Nat.le_trans (Nat.le_succ z) (ih (z + 1))

lemma arrangeLoop_bounds (adapters : List Adapter) (entities : List Entity)
    (mk : Adapter → SceneNode) (z : Nat) :
    ∀ p ∈ (arrangeLoop adapters entities mk z).1,
      z < p.2 ∧ p.2 ≤ (arrangeLoop adapters entities mk z).2 := by
  induction entities generalizing z with
  | nil => simp [arrangeLoop]
  | cons e rest ih =>
    cases hf : adapters.find? (fun a => a.id = e.id) with
    | none =>
      simp only [arrangeLoop, hf]
      exact ih z
    | some a =>
      simp only [arrangeLoop, hf]
      intro p hp
      rcases List.mem_cons.mp hp with h | h
      · subst h
        exact ⟨Nat.lt_succ_self z, arrangeLoop_z_le adapters rest mk (z + 1)⟩
      · have := ih (z + 1) p h
        exact ⟨Nat.lt_trans (Nat.lt_succ_self z) this.1, this.2⟩

lemma arrangeLoop_pairwise (adapters : List Adapter) (entities : List Entity)
    (mk : Adapter → SceneNode) (z : Nat) :
    ((arrangeLoop adapters entities mk z).1).Pairwise
      (fun p q : SceneNode × Nat => p.2 < q.2) := by
  induction entities generalizing z with
  | nil => simp [arrangeLoop]
  | cons e rest ih =>
    cases hf : adapters.find? (fun a => a.id = e.id) with
    | none =>
      simp only [arrangeLoop, hf]
      exact ih z
    | some a =>
      simp only [arrangeLoop, hf]
      rw [List.pairwise_cons]
      exact ⟨fun q hq => (arrangeLoop_bounds adapters rest mk (z + 1) q hq).1, ih (z + 1)⟩

lemma arrangeLoop_nodes (adapters : List Adapter) (entities : List Entity)
    (mk : Adapter → SceneNode) (z : Nat) :
    (arrangeLoop adapters entities mk z).1.map Prod.fst =
      entities.filterMap (fun e => (adapters.find? (fun a => a.id = e.id)).map mk) := by
  induction entities generalizing z with
  | nil => simp [arrangeLoop]
  | cons e rest ih =>
    cases hf : adapters.find? (fun a => a.id = e.id) with
    | none =>
      simp only [arrangeLoop, hf, List.filterMap_cons, Option.map_none]
      exact ih z
    | some a =>
      simp only [arrangeLoop, hf, List.map_cons]
      rw [ih (z + 1)]
      simp [List.filterMap_cons, hf]

/-- Claim C4: after arrangeEntities the z-indices are a deterministic
total order: the assignment list is strictly increasing in z-index, and
the assigned scene nodes are, in order, the background, the initial
image, the drawable-layer adapters in snapshot order, the
control-adapter adapters in snapshot order, the region-guide adapters
in snapshot order, the inpaint mask and topmost the preview layer;
hence an adapter of an earlier category always has a strictly smaller
z-index than one of a later category, and within a category the
z-indices follow snapshot order. -/
theorem arrange_z_order (s : CanvasV2State) (m : Manager) :
    (arrangeEntities s m).Pairwise (fun p q => p.2 < q.2) ∧
    (arrangeEntities s m).map Prod.fst =
      SceneNode.background :: SceneNode.initialImage ::
        (s.layersEntities.filterMap
            (fun e => (m.layers.find? (fun a => a.id = e.id)).map SceneNode.layerOf) ++
          (s.controlAdaptersEntities.filterMap
            (fun e => (m.controlAdapters.find? (fun a => a.id = e.id)).map
              SceneNode.controlAdapterOf) ++
            (s.regionsEntities.filterMap
              (fun e => (m.regions.find? (fun a => a.id = e.id)).map SceneNode.regionOf) ++
              [SceneNode.inpaintMask, SceneNode.preview]))) := by
  have hBL := arrangeLoop_bounds m.layers s.layersEntities SceneNode.layerOf (0 + 1 + 1)
  have hPL := arrangeLoop_pairwise m.layers s.layersEntities SceneNode.layerOf (0 + 1 + 1)
  have hZL := arrangeLoop_z_le m.layers s.layersEntities SceneNode.layerOf (0 + 1 + 1)
  have hBC := arrangeLoop_bounds m.controlAdapters s.controlAdaptersEntities
    SceneNode.controlAdapterOf
    (arrangeLoop m.layers s.layersEntities SceneNode.layerOf (0 + 1 + 1)).2
  have hPC := arrangeLoop_pairwise m.controlAdapters s.controlAdaptersEntities
    SceneNode.controlAdapterOf
    (arrangeLoop m.layers s.layersEntities SceneNode.layerOf (0 + 1 + 1)).2
  have hZC := arrangeLoop_z_le m.controlAdapters s.controlAdaptersEntities
    SceneNode.controlAdapterOf
    (arrangeLoop m.layers s.layersEntities SceneNode.layerOf (0 + 1 + 1)).2
  have hBR := arrangeLoop_bounds m.regions s.regionsEntities SceneNode.regionOf
    (arrangeLoop m.controlAdapters s.controlAdaptersEntities SceneNode.controlAdapterOf
      (arrangeLoop m.layers s.layersEntities SceneNode.layerOf (0 + 1 + 1)).2).2
  have hPR := arrangeLoop_pairwise m.regions s.regionsEntities SceneNode.regionOf
    (arrangeLoop m.controlAdapters s.controlAdaptersEntities SceneNode.controlAdapterOf
      (arrangeLoop m.layers s.layersEntities SceneNode.layerOf (0 + 1 + 1)).2).2
  have hZR := arrangeLoop_z_le m.regions s.regionsEntities SceneNode.regionOf
    (arrangeLoop m.controlAdapters s.controlAdaptersEntities SceneNode.controlAdapterOf
      (arrangeLoop m.layers s.layersEntities SceneNode.layerOf (0 + 1 + 1)).2).2
  constructor
  · simp only [arrangeEntities, List.append_assoc]
    rw [List.pairwise_cons]
    constructor
    · intro q hq
      rcases List.mem_cons.mp hq with h | h
      · subst h
        omega
      · rcases List.mem_append.mp h with h2 | h2
        · have := hBL q h2
          omega
        · rcases List.mem_append.mp h2 with h3 | h3
          · have := hBC q h3
            omega
          · rcases List.mem_append.mp h3 with h4 | h4
            · have := hBR q h4
              omega
            · rcases List.mem_cons.mp h4 with h5 | h5
              · subst h5
                simp only
                omega
              · rcases List.mem_cons.mp h5 with h6 | h6
                · subst h6
                  simp only
                  omega
                · exact absurd h6 (List.not_mem_nil q)
    · rw [List.pairwise_cons]
      constructor
      · intro q hq
        rcases List.mem_append.mp hq with h2 | h2
        · have := hBL q h2
          omega
        · rcases List.mem_append.mp h2 with h3 | h3
          · have := hBC q h3
            omega
          · rcases List.mem_append.mp h3 with h4 | h4
            · have := hBR q h4
              omega
            · rcases List.mem_cons.mp h4 with h5 | h5
              · subst h5
                simp only
                omega
              · rcases List.mem_cons.mp h5 with h6 | h6
                · subst h6
                  simp only
                  omega
                · exact absurd h6 (List.not_mem_nil q)
      · rw [List.pairwise_append]
        refine ⟨hPL, ?_, ?_⟩
        · rw [List.pairwise_append]
          refine ⟨hPC, ?_, ?_⟩
          · rw [List.pairwise_append]
            refine ⟨hPR, ?_, ?_⟩
            · rw [List.pairwise_cons]
              constructor
              · intro q hq
                rcases List.mem_cons.mp hq with h5 | h5
                · subst h5
                  simp only
                  omega
                · exact absurd h5 (List.not_mem_nil q)
              · rw [List.pairwise_cons]
                exact ⟨fun q hq => absurd hq (List.not_mem_nil q), List.Pairwise.nil⟩
            · intro a ha b hb
              have h1 := hBR a ha
              rcases List.mem_cons.mp hb with h5 | h5
              · subst h5
                omega
              · rcases List.mem_cons.mp h5 with h6 | h6
                · subst h6
                  omega
                · exact absurd h6 (List.not_mem_nil b)
          · intro a ha b hb
            have h1 := hBC a ha
            rcases List.mem_append.mp hb with h4 | h4
            · have h2 := hBR b h4
              omega
            · rcases List.mem_cons.mp h4 with h5 | h5
              · subst h5
                omega
              · rcases List.mem_cons.mp h5 with h6 | h6
                · subst h6
                  omega
                · exact absurd h6 (List.not_mem_nil b)
        · intro a ha b hb
          have h1 := hBL a ha
          rcases List.mem_append.mp hb with h3 | h3
          · have h2 := hBC b h3
            omega
          · rcases List.mem_append.mp h3 with h4 | h4
            · have h2 := hBR b h4
              omega
            · rcases List.mem_cons.mp h4 with h5 | h5
              · subst h5
                omega
              · rcases List.mem_cons.mp h5 with h6 | h6
                · subst h6
                  omega
                · exact absurd h6 (List.not_mem_nil b)
  · simp only [arrangeEntities, List.map_cons, List.map_append,
      arrangeLoop_nodes, List.map_nil]
    simp

/-- The surviving region adapter of the reconciliation example. -/
def reconAdapter5 : Adapter := { id := 5, type := EntityType.regional_guidance, tag := 0 }

/-- A snapshot entity list for the reconciliation example: id 5 persists
and id 9 is new. -/
def reconEntities : List Entity :=
  [{ id := 5, type := EntityType.regional_guidance, fill := fill0 },
    { id := 9, type := EntityType.regional_guidance, fill := fill0 }]

/-- A live collection for the reconciliation example: id 5 persists and
id 4 left the snapshot. -/
def reconAdapters : List Adapter :=
  [reconAdapter5, { id := 4, type := EntityType.regional_guidance, tag := 1 }]

/-- Claim C1 witness: the id-set convergence at a concrete pass that
destroys id 4, keeps id 5 and creates id 9. -/
theorem reconcile_id_set_matches_snapshot_witness :
    ((reconcile EntityType.regional_guidance reconEntities reconAdapters 3).1.map
        Adapter.id).Nodup ∧
    ∀ i : Nat,
      i ∈ (reconcile EntityType.regional_guidance reconEntities reconAdapters 3).1.map
        Adapter.id ↔ i ∈ reconEntities.map Entity.id :=
  reconcile_id_set_matches_snapshot EntityType.regional_guidance reconEntities
    reconAdapters 3 (by decide)

/-- Claim C3 witness: instance preservation for id 5 at the concrete
pass of the reconciliation example. -/
theorem reconcile_preserves_adapter_instance_witness :
    (reconcile EntityType.regional_guidance reconEntities reconAdapters 3).1.find?
        (fun x => x.id = reconAdapter5.id) = some reconAdapter5 ∧
    ∀ x : Adapter,
      Effect.destroyAdapter x ∈
        (reconcile EntityType.regional_guidance reconEntities reconAdapters 3).2.2 →
      x.id ∉ reconEntities.map Entity.id :=
  reconcile_preserves_adapter_instance EntityType.regional_guidance reconEntities
    reconAdapters 3 reconAdapter5 (by decide) (by decide)

end InvokeCanvas
